import Mathlib

/-!
Shallow embedding of the moderation service core (`models.py` of the
anthill moderation service): the moderation-action / warning ledgers,
the warning-escalation engine (`warn`), direct enforcement
(`moderate`), threshold lookup, and the activation lifecycle
(`turn_on` / `turn_off`).

Modelling conventions:
* timestamps are `Nat` (`timezone.now()` becomes an explicit `now`
  argument);
* the SQLAlchemy session is a `DB`: a committed `Store` plus the
  pending (staged, uncommitted) rows; `db.session.add` appends to the
  pending list, `db.session.commit` moves pending rows into the store,
  `db.session.rollback` discards them (autoincrement counters live on
  the database side and survive a rollback);
* queries see committed plus pending rows (SQLAlchemy autoflushes
  pending rows before a query runs, so the count in `warn` includes
  the warning staged just before it);
* the external notifier (`send_email` / `send_message`) is a
  parameter recording which deliveries succeed; a run returns the
  Python outcome (`Except`), the session state, and the list of
  notifications actually delivered;
* Python exceptions become constructors of `PyError`.  The error
  kinds named by the spec but absent from the code
  (`configurationError`, `validationError`) are present in the type so
  that their non-occurrence is statable.
-/

/-- Python exception kinds relevant to the core.  The code itself only
ever raises `attributeError` (dereferencing a missing threshold row)
and `deliveryError` (a notification send failing); the spec-named
`configurationError` and `validationError` kinds exist in the type so
claims about them can be stated. -/
inductive PyError where
  | attributeError
  | deliveryError
  | configurationError
  | validationError
deriving DecidableEq, Repr

/-- Opaque JSON-ish extra data stored verbatim on a row. -/
abbrev ExtraData := List (String × String)

/-- A resolved remote user; only the id matters to the ledger, contact
details are the notifier collaborator's concern. -/
structure RemoteUser where
  id : Nat
deriving DecidableEq, Repr

/-- A row of the `actions` table (class `ModerationAction`). -/
structure ModerationAction where
  id : Nat
  action_type : String
  moderator_id : Nat
  user_id : Nat
  created_at : Nat
  reason : String
  is_active : Bool
  extra_data : Option ExtraData
  finish_at : Option Nat
deriving DecidableEq, Repr

/-- A row of the `warnings` table (class `ModerationWarning`): same
base shape as an action but with no `finish_at` column. -/
structure ModerationWarning where
  id : Nat
  action_type : String
  moderator_id : Nat
  user_id : Nat
  created_at : Nat
  reason : String
  is_active : Bool
  extra_data : Option ExtraData
deriving DecidableEq, Repr

/-- A row of the `warning_thresholds` table
(class `ModerationWarningThreshold`). -/
structure ModerationWarningThreshold where
  id : Nat
  action_type : String
  value : Nat
deriving DecidableEq, Repr

/-- The constant `DEFAULT_MODERATION_WARNING_THRESHOLD` from
`models.py`; used only as the column default when creating a threshold
row, never as a read-time fallback. -/
def DEFAULT_MODERATION_WARNING_THRESHOLD : Nat := 3

namespace ModerationAction

/-- Hybrid property `time_limited`: the action has a `finish_at`. -/
def time_limited (a : ModerationAction) : Bool :=
  a.finish_at.isSome

/-- Hybrid property `finished`, exactly as the code computes it:
`if self.time_limited: return self.finish_at <= timezone.now()` and
then `return True` on the non-time-limited path. -/
def finished (now : Nat) (a : ModerationAction) : Bool :=
  match a.finish_at with
  | some t => t ≤ now
  | none => true

/-- Hybrid property `active` on `ModerationAction`:
`self.is_active and not self.finished`. -/
def active (now : Nat) (a : ModerationAction) : Bool :=
  a.is_active && !(finished now a)

/-- Method `turn_on`: set the action in active state (only
`is_active` is assigned). -/
def turn_on (a : ModerationAction) : ModerationAction :=
  { a with is_active := true }

/-- Method `turn_off`: set the action in inactive state (only
`is_active` is assigned). -/
def turn_off (a : ModerationAction) : ModerationAction :=
  { a with is_active := false }

end ModerationAction

namespace ModerationWarning

/-- Hybrid property `active` on `ModerationWarning` (inherited from
`BaseModerationAction`): just `is_active`, no time expiry. -/
def active (w : ModerationWarning) : Bool :=
  w.is_active

/-- Method `turn_on` on a warning row. -/
def turn_on (w : ModerationWarning) : ModerationWarning :=
  { w with is_active := true }

/-- Method `turn_off` on a warning row. -/
def turn_off (w : ModerationWarning) : ModerationWarning :=
  { w with is_active := false }

end ModerationWarning

/-- The committed contents of the three tables. -/
structure Store where
  actions : List ModerationAction
  warnings : List ModerationWarning
  thresholds : List ModerationWarningThreshold
deriving DecidableEq, Repr

/-- The session: committed store plus staged (pending, uncommitted)
rows, plus the autoincrement counters (which, as database sequences,
are not rolled back). -/
structure DB where
  committed : Store
  pendingActions : List ModerationAction
  pendingWarnings : List ModerationWarning
  nextActionId : Nat
  nextWarningId : Nat
deriving DecidableEq, Repr

/-- Session method `db.session.commit()`: staged rows become part of
the store. -/
def commitDB (db : DB) : DB :=
  { db with
    committed :=
      { db.committed with
        actions := db.committed.actions ++ db.pendingActions
        warnings := db.committed.warnings ++ db.pendingWarnings }
    pendingActions := []
    pendingWarnings := [] }

/-- Session method `db.session.rollback()`: staged rows are
discarded; the committed store and the id sequences are untouched. -/
def rollback (db : DB) : DB :=
  { db with pendingActions := [], pendingWarnings := [] }

/-- The filter of `BaseModerationAction.actions_query` specialised to
warnings: `filter_by(active=True, user_id=..., action_type=...)`
(for a warning, `active` is the plain `is_active` column). -/
def warningMatches (uid : Nat) (t : String) (w : ModerationWarning) : Bool :=
  w.is_active && w.user_id == uid && w.action_type == t

/-- The count `cls.actions_query(user_id, action_type=...).count()`
as executed inside `warn`: counts over committed plus autoflushed
pending rows. -/
def countActiveWarnings (db : DB) (uid : Nat) (t : String) : Nat :=
  ((db.committed.warnings ++ db.pendingWarnings).filter
    (warningMatches uid t)).length

/-- The lookup
`cls.threshold_model.query.filter_by(action_type=...).first()`. -/
def findThreshold (db : DB) (t : String) :
    Option ModerationWarningThreshold :=
  db.committed.thresholds.find? (fun th => th.action_type == t)

/-- A successfully delivered notification (email or in-band
message), as observed by the target user. -/
inductive Notice where
  | email (uid : Nat) (subject text : String)
  | message (uid : Nat) (text : String)
deriving DecidableEq, Repr

/-- The external notification collaborator: which sends succeed
(`fail_silently` is always false, so a failed send raises). -/
structure Notifier where
  emailOk : Nat → String → String → Bool
  messageOk : Nat → String → Bool

/-- Subject of the enforcement notification in `moderate`. -/
def moderatedSubject : String := "You are moderated"

/-- Subject of the warning notification in `warn`. -/
def warnedSubject : String := "You are warned"

/-- Outcome of a core operation: Python result, session state, and the
notifications that were actually delivered. -/
structure MRes (α : Type) where
  res : Except PyError α
  db : DB
  sent : List Notice
deriving Repr

/-- The `ModerationAction` row constructed at the top of
`ModerationAction.moderate` (ids and `created_at`/`is_active`
defaults made explicit). -/
def mkAction (aid now : Nat) (t reason : String) (m u : RemoteUser)
    (extra : Option ExtraData) (fin : Option Nat) : ModerationAction :=
  { id := aid, action_type := t, moderator_id := m.id, user_id := u.id
    created_at := now, reason := reason, is_active := true
    extra_data := extra, finish_at := fin }

/-- The `ModerationWarning` row constructed at the top of
`ModerationWarning.warn` (no `finish_at` is part of it). -/
def mkWarning (wid now : Nat) (t reason : String) (m u : RemoteUser)
    (extra : Option ExtraData) : ModerationWarning :=
  { id := wid, action_type := t, moderator_id := m.id, user_id := u.id
    created_at := now, reason := reason, is_active := true
    extra_data := extra }

/-- Staging step of `moderate`: `obj = cls(**data); db.session.add(obj)`
with the autoincrement id handed out by the database. -/
def stageAction (now : Nat) (t reason : String) (m u : RemoteUser)
    (extra : Option ExtraData) (fin : Option Nat) (db : DB) : DB :=
  { db with
    pendingActions :=
      db.pendingActions ++ [mkAction db.nextActionId now t reason m u extra fin]
    nextActionId := db.nextActionId + 1 }

/-- Staging step of `warn`: `obj = cls(**data); db.session.add(obj)`. -/
def stageWarning (now : Nat) (t reason : String) (m u : RemoteUser)
    (extra : Option ExtraData) (db : DB) : DB :=
  { db with
    pendingWarnings :=
      db.pendingWarnings ++ [mkWarning db.nextWarningId now t reason m u extra]
    nextWarningId := db.nextWarningId + 1 }

/-- Method `ModerationAction.moderate(action_type, reason, moderator,
user, extra_data, finish_at, commit)`: build the row, stage it, commit
if asked, then send the email and the in-band message; a failed send
raises and is not caught here.  The Python function has no `return`
statement, so its value is `None` (`Except.ok none`). -/
def moderate (notif : Notifier) (now : Nat) (t reason : String)
    (m u : RemoteUser) (extra : Option ExtraData) (fin : Option Nat)
    (commit : Bool) (db : DB) : MRes (Option ModerationAction) :=
  let db1 := stageAction now t reason m u extra fin db
  let db2 := if commit then commitDB db1 else db1
  if notif.emailOk u.id moderatedSubject reason then
    if notif.messageOk u.id reason then
      ⟨.ok none, db2, [.email u.id moderatedSubject reason, .message u.id reason]⟩
    else
      ⟨.error .deliveryError, db2, [.email u.id moderatedSubject reason]⟩
  else
    ⟨.error .deliveryError, db2, []⟩

/-- Method `ModerationWarning.warn(action_type, reason, moderator,
user, finish_at, extra_data)`: stage a warning row, count active
warnings for (user, action_type) with the staged row autoflushed in,
look up the threshold row (`.first()` on a missing row gives `None`,
and `None.value` raises `AttributeError`), escalate via
`moderate(..., commit=False)` when the count reaches the threshold
(`>=`), otherwise notify the user of the warning; commit at the end,
and on any exception roll back and re-raise. -/
def warn (notif : Notifier) (now : Nat) (t reason : String)
    (m u : RemoteUser) (fin : Option Nat) (extra : Option ExtraData)
    (db : DB) : MRes Unit :=
  let db1 := stageWarning now t reason m u extra db
  let cnt := countActiveWarnings db1 u.id t
  match findThreshold db1 t with
  | none => ⟨.error .attributeError, rollback db1, []⟩
  | some th =>
    if th.value ≤ cnt then
      match moderate notif now t reason m u extra fin false db1 with
      | ⟨.error e, db2, ns⟩ => ⟨.error e, rollback db2, ns⟩
      | ⟨.ok _, db2, ns⟩ => ⟨.ok (), commitDB db2, ns⟩
    else
      if notif.emailOk u.id warnedSubject reason then
        if notif.messageOk u.id reason then
          ⟨.ok (), commitDB db1,
            [.email u.id warnedSubject reason, .message u.id reason]⟩
        else
          ⟨.error .deliveryError, rollback db1,
            [.email u.id warnedSubject reason]⟩
      else
        ⟨.error .deliveryError, rollback db1, []⟩

/-- Store-side `save` of `turn_on` on the action row with a given id:
only that row's `is_active` field is assigned. -/
def turnOnAction (s : Store) (i : Nat) : Store :=
  { s with actions :=
      s.actions.map (fun a => if a.id == i then a.turn_on else a) }

/-- Store-side `save` of `turn_off` on the action row with a given id. -/
def turnOffAction (s : Store) (i : Nat) : Store :=
  { s with actions :=
      s.actions.map (fun a => if a.id == i then a.turn_off else a) }

/-- Store-side `save` of `turn_on` on the warning row with a given id. -/
def turnOnWarning (s : Store) (i : Nat) : Store :=
  { s with warnings :=
      s.warnings.map (fun w => if w.id == i then w.turn_on else w) }

/-- Store-side `save` of `turn_off` on the warning row with a given id. -/
def turnOffWarning (s : Store) (i : Nat) : Store :=
  { s with warnings :=
      s.warnings.map (fun w => if w.id == i then w.turn_off else w) }

/-- Everything on an action row except `is_active`. -/
def actionFrame (a : ModerationAction) :
    Nat × String × Nat × Nat × Nat × String × Option ExtraData × Option Nat :=
  (a.id, a.action_type, a.moderator_id, a.user_id, a.created_at,
   a.reason, a.extra_data, a.finish_at)

/-- Everything on a warning row except `is_active`. -/
def warningFrame (w : ModerationWarning) :
    Nat × String × Nat × Nat × Nat × String × Option ExtraData :=
  (w.id, w.action_type, w.moderator_id, w.user_id, w.created_at,
   w.reason, w.extra_data)

/-- Example action type used in concrete runs. -/
def exType : String := "ban_account"

/-- Example reason used in concrete runs. -/
def exReason : String := "spam"

/-- The empty reason string. -/
def noReason : String := ""

/-- Example moderator. -/
def exMod : RemoteUser := ⟨2⟩

/-- Example target user. -/
def exUser : RemoteUser := ⟨3⟩

/-- A concrete permanent ban: `finish_at = None`, `is_active = true`. -/
def permBan : ModerationAction :=
  mkAction 1 0 exType exReason exMod exUser none none

/-- A notifier for which every delivery succeeds. -/
def allOk : Notifier := ⟨fun _ _ _ => true, fun _ _ => true⟩

/-- A notifier for which every email send fails. -/
def emailDown : Notifier := ⟨fun _ _ _ => false, fun _ _ => true⟩

/-- An empty session over an empty store. -/
def db0 : DB := ⟨⟨[], [], []⟩, [], [], 1, 1⟩

/-- A session whose store has a threshold of 3 for the example action
type and nothing else. -/
def dbThr : DB := ⟨⟨[], [], [⟨1, exType, 3⟩]⟩, [], [], 1, 1⟩

/-- An active warning row of the example user and type, with a given
id. -/
def exWarning (wid : Nat) : ModerationWarning :=
  mkWarning wid 0 exType exReason exMod exUser none

/-- A session whose store has the threshold row (value 3) and exactly
two prior active warnings of the example (user, type): one warning
short of the configured threshold. -/
def dbTwoWarnings : DB :=
  ⟨⟨[], [exWarning 1, exWarning 2], [⟨1, exType, 3⟩]⟩, [], [], 1, 3⟩

/-- Count of committed active warnings of a (user, action_type) in a
store: what a later `warn` call on a fresh session starts from. -/
def storeCount (s : Store) (uid : Nat) (t : String) : Nat :=
  (s.warnings.filter (warningMatches uid t)).length

/-- C1: the code computes `finished` as `True` on the non-time-limited
path, so a permanent action (`finish_at = None`, `is_active = true`)
is reported finished and hence not active — the opposite of the
spec's "never finishes if unlimited". -/
theorem c1_unlimited_action_reported_finished :
    permBan.finish_at = none ∧ permBan.is_active = true ∧
    ModerationAction.finished 10 permBan = true ∧
    ModerationAction.active 10 permBan = false :=
  ⟨rfl, rfl, rfl, rfl⟩

/- Helper lemmas: branch-by-branch characterisation of `moderate` and
`warn`, used by several claim theorems below. -/

theorem findThreshold_stageWarning (now : Nat) (t reason : String)
    (m u : RemoteUser) (extra : Option ExtraData) (db : DB) (t2 : String) :
    findThreshold (stageWarning now t reason m u extra db) t2 =
      findThreshold db t2 := rfl

theorem countActiveWarnings_stageWarning (now : Nat) (t reason : String)
    (m u : RemoteUser) (extra : Option ExtraData) (db : DB) :
    countActiveWarnings (stageWarning now t reason m u extra db) u.id t =
      countActiveWarnings db u.id t + 1 := by
  simp [countActiveWarnings, stageWarning, warningMatches, mkWarning,
    List.filter_append]
  omega

theorem moderate_email_fail (notif : Notifier) (now : Nat)
    (t reason : String) (m u : RemoteUser) (extra : Option ExtraData)
    (fin : Option Nat) (commit : Bool) (db : DB)
    (he : notif.emailOk u.id moderatedSubject reason = false) :
    moderate notif now t reason m u extra fin commit db =
      ⟨.error .deliveryError,
       if commit then commitDB (stageAction now t reason m u extra fin db)
       else stageAction now t reason m u extra fin db, []⟩ := by
  simp [moderate, he]

theorem moderate_message_fail (notif : Notifier) (now : Nat)
    (t reason : String) (m u : RemoteUser) (extra : Option ExtraData)
    (fin : Option Nat) (commit : Bool) (db : DB)
    (he : notif.emailOk u.id moderatedSubject reason = true)
    (hm : notif.messageOk u.id reason = false) :
    moderate notif now t reason m u extra fin commit db =
      ⟨.error .deliveryError,
       if commit then commitDB (stageAction now t reason m u extra fin db)
       else stageAction now t reason m u extra fin db,
       [.email u.id moderatedSubject reason]⟩ := by
  simp [moderate, he, hm]

theorem moderate_ok (notif : Notifier) (now : Nat)
    (t reason : String) (m u : RemoteUser) (extra : Option ExtraData)
    (fin : Option Nat) (commit : Bool) (db : DB)
    (he : notif.emailOk u.id moderatedSubject reason = true)
    (hm : notif.messageOk u.id reason = true) :
    moderate notif now t reason m u extra fin commit db =
      ⟨.ok none,
       if commit then commitDB (stageAction now t reason m u extra fin db)
       else stageAction now t reason m u extra fin db,
       [.email u.id moderatedSubject reason, .message u.id reason]⟩ := by
  simp [moderate, he, hm]

theorem warn_no_threshold (notif : Notifier) (now : Nat)
    (t reason : String) (m u : RemoteUser) (fin : Option Nat)
    (extra : Option ExtraData) (db : DB)
    (hth : findThreshold db t = none) :
    warn notif now t reason m u fin extra db =
      ⟨.error .attributeError,
       rollback (stageWarning now t reason m u extra db), []⟩ := by
  simp [warn, findThreshold_stageWarning, hth]

theorem warn_below_ok (notif : Notifier) (now : Nat)
    (t reason : String) (m u : RemoteUser) (fin : Option Nat)
    (extra : Option ExtraData) (db : DB) (th : ModerationWarningThreshold)
    (hth : findThreshold db t = some th)
    (hc : countActiveWarnings db u.id t + 1 < th.value)
    (he : notif.emailOk u.id warnedSubject reason = true)
    (hm : notif.messageOk u.id reason = true) :
    warn notif now t reason m u fin extra db =
      ⟨.ok (), commitDB (stageWarning now t reason m u extra db),
       [.email u.id warnedSubject reason, .message u.id reason]⟩ := by
  have hnc : ¬ th.value ≤ countActiveWarnings db u.id t + 1 := by omega
  simp [warn, findThreshold_stageWarning, hth,
    countActiveWarnings_stageWarning, hnc, he, hm]

theorem warn_below_email_fail (notif : Notifier) (now : Nat)
    (t reason : String) (m u : RemoteUser) (fin : Option Nat)
    (extra : Option ExtraData) (db : DB) (th : ModerationWarningThreshold)
    (hth : findThreshold db t = some th)
    (hc : countActiveWarnings db u.id t + 1 < th.value)
    (he : notif.emailOk u.id warnedSubject reason = false) :
    warn notif now t reason m u fin extra db =
      ⟨.error .deliveryError,
       rollback (stageWarning now t reason m u extra db), []⟩ := by
  have hnc : ¬ th.value ≤ countActiveWarnings db u.id t + 1 := by omega
  simp [warn, findThreshold_stageWarning, hth,
    countActiveWarnings_stageWarning, hnc, he]

theorem warn_below_message_fail (notif : Notifier) (now : Nat)
    (t reason : String) (m u : RemoteUser) (fin : Option Nat)
    (extra : Option ExtraData) (db : DB) (th : ModerationWarningThreshold)
    (hth : findThreshold db t = some th)
    (hc : countActiveWarnings db u.id t + 1 < th.value)
    (he : notif.emailOk u.id warnedSubject reason = true)
    (hm : notif.messageOk u.id reason = false) :
    warn notif now t reason m u fin extra db =
      ⟨.error .deliveryError,
       rollback (stageWarning now t reason m u extra db),
       [.email u.id warnedSubject reason]⟩ := by
  have hnc : ¬ th.value ≤ countActiveWarnings db u.id t + 1 := by omega
  simp [warn, findThreshold_stageWarning, hth,
    countActiveWarnings_stageWarning, hnc, he, hm]

theorem warn_escalate_ok (notif : Notifier) (now : Nat)
    (t reason : String) (m u : RemoteUser) (fin : Option Nat)
    (extra : Option ExtraData) (db : DB) (th : ModerationWarningThreshold)
    (hth : findThreshold db t = some th)
    (hc : th.value ≤ countActiveWarnings db u.id t + 1)
    (he : notif.emailOk u.id moderatedSubject reason = true)
    (hm : notif.messageOk u.id reason = true) :
    warn notif now t reason m u fin extra db =
      ⟨.ok (),
       commitDB (stageAction now t reason m u extra fin
         (stageWarning now t reason m u extra db)),
       [.email u.id moderatedSubject reason, .message u.id reason]⟩ := by
  simp [warn, findThreshold_stageWarning, hth,
    countActiveWarnings_stageWarning, hc, moderate_ok, he, hm]

theorem warn_escalate_email_fail (notif : Notifier) (now : Nat)
    (t reason : String) (m u : RemoteUser) (fin : Option Nat)
    (extra : Option ExtraData) (db : DB) (th : ModerationWarningThreshold)
    (hth : findThreshold db t = some th)
    (hc : th.value ≤ countActiveWarnings db u.id t + 1)
    (he : notif.emailOk u.id moderatedSubject reason = false) :
    warn notif now t reason m u fin extra db =
      ⟨.error .deliveryError,
       rollback (stageAction now t reason m u extra fin
         (stageWarning now t reason m u extra db)), []⟩ := by
  simp [warn, findThreshold_stageWarning, hth,
    countActiveWarnings_stageWarning, hc, moderate_email_fail, he]

theorem warn_escalate_message_fail (notif : Notifier) (now : Nat)
    (t reason : String) (m u : RemoteUser) (fin : Option Nat)
    (extra : Option ExtraData) (db : DB) (th : ModerationWarningThreshold)
    (hth : findThreshold db t = some th)
    (hc : th.value ≤ countActiveWarnings db u.id t + 1)
    (he : notif.emailOk u.id moderatedSubject reason = true)
    (hm : notif.messageOk u.id reason = false) :
    warn notif now t reason m u fin extra db =
      ⟨.error .deliveryError,
       rollback (stageAction now t reason m u extra fin
         (stageWarning now t reason m u extra db)),
       [.email u.id moderatedSubject reason]⟩ := by
  simp [warn, findThreshold_stageWarning, hth,
    countActiveWarnings_stageWarning, hc, moderate_message_fail, he, hm]

/-- C2 counterexample: with every email send failing, `moderate` with
its default `commit=true` raises a delivery error, yet the freshly
created action row stays durably committed afterwards — refuting the
claim that no ledger write persists when notification fails. -/
theorem c2_counterexample :
    (moderate emailDown 0 exType exReason exMod exUser none none true db0).res =
      .error .deliveryError ∧
    (moderate emailDown 0 exType exReason exMod exUser none none true
      db0).db.committed.actions =
      [mkAction 1 0 exType exReason exMod exUser none none] := by
  exact ⟨rfl, rfl⟩

/-- C2 (amended): `moderate` with its default `commit=true` durably
commits the new action row before attempting notification, so a
delivery failure raises while the row stays committed; when both
deliveries succeed the row is committed and both notifications are
sent (the all-or-nothing contract holds only for `warn`). -/
theorem c2_moderate_commit_precedes_notification
    (notif : Notifier) (now : Nat) (t reason : String) (m u : RemoteUser)
    (extra : Option ExtraData) (fin : Option Nat) (db : DB) :
    (notif.emailOk u.id moderatedSubject reason = false →
      (moderate notif now t reason m u extra fin true db).res =
        .error .deliveryError ∧
      (moderate notif now t reason m u extra fin true db).db.committed.actions =
        db.committed.actions ++ db.pendingActions ++
          [mkAction db.nextActionId now t reason m u extra fin]) ∧
    (notif.emailOk u.id moderatedSubject reason = true →
      notif.messageOk u.id reason = true →
      (moderate notif now t reason m u extra fin true db).res = .ok none ∧
      (moderate notif now t reason m u extra fin true db).db.committed.actions =
        db.committed.actions ++ db.pendingActions ++
          [mkAction db.nextActionId now t reason m u extra fin] ∧
      (moderate notif now t reason m u extra fin true db).sent =
        [.email u.id moderatedSubject reason, .message u.id reason]) := by
  constructor
  · intro he
    rw [moderate_email_fail notif now t reason m u extra fin true db he]
    exact ⟨rfl, by simp [commitDB, stageAction]⟩
  · intro he hm
    rw [moderate_ok notif now t reason m u extra fin true db he hm]
    exact ⟨rfl, by simp [commitDB, stageAction], rfl⟩

/-- Witness for the C2 amended theorem at a concrete input. -/
theorem c2_moderate_commit_precedes_notification_witness :
    emailDown.emailOk exUser.id moderatedSubject exReason = false ∧
    ((moderate emailDown 0 exType exReason exMod exUser none none true db0).res =
        .error .deliveryError ∧
      (moderate emailDown 0 exType exReason exMod exUser none none true
        db0).db.committed.actions =
        db0.committed.actions ++ db0.pendingActions ++
          [mkAction db0.nextActionId 0 exType exReason exMod exUser none none]) :=
  ⟨rfl, (c2_moderate_commit_precedes_notification emailDown 0 exType exReason
    exMod exUser none none db0).1 rfl⟩

/-- C3 counterexample: threshold 3 is configured and the user has
exactly two (= threshold − 1) prior active warnings, yet `warn`
already escalates on this call: the count taken after staging reaches
3, an action row is committed, and the enforcement ("moderated")
notification is sent instead of the "warned" one — refuting the
claim that this call yields a warning only. -/
theorem c3_counterexample :
    (warn allOk 0 exType exReason exMod exUser none none dbTwoWarnings).res =
      .ok () ∧
    (warn allOk 0 exType exReason exMod exUser none none
      dbTwoWarnings).db.committed.actions =
      [mkAction 1 0 exType exReason exMod exUser none none] ∧
    (warn allOk 0 exType exReason exMod exUser none none dbTwoWarnings).sent =
      [.email exUser.id moderatedSubject exReason,
       .message exUser.id exReason] := by
  exact ⟨rfl, rfl, rfl⟩

/-- C3 (amended): the boundary sits one warning earlier than claimed.
Because the count is taken after staging and compared with `>=`, a
user with at most threshold − 2 prior active warnings gets exactly one
new warning, no action and the "warned" notification, while a user
with threshold − 1 prior active warnings (the staged count reaching
the threshold) gets the new warning plus a new action and the
"action taken" notification, with no "warned" notification. -/
theorem c3_threshold_boundary
    (notif : Notifier) (now : Nat) (t reason : String) (m u : RemoteUser)
    (fin : Option Nat) (extra : Option ExtraData) (db : DB)
    (th : ModerationWarningThreshold)
    (hth : findThreshold db t = some th)
    (hwe : notif.emailOk u.id warnedSubject reason = true)
    (hme : notif.emailOk u.id moderatedSubject reason = true)
    (hm : notif.messageOk u.id reason = true) :
    (countActiveWarnings db u.id t + 1 < th.value →
      (warn notif now t reason m u fin extra db).res = .ok () ∧
      (warn notif now t reason m u fin extra db).db.committed.warnings =
        db.committed.warnings ++ db.pendingWarnings ++
          [mkWarning db.nextWarningId now t reason m u extra] ∧
      (warn notif now t reason m u fin extra db).db.committed.actions =
        db.committed.actions ++ db.pendingActions ∧
      (warn notif now t reason m u fin extra db).sent =
        [.email u.id warnedSubject reason, .message u.id reason]) ∧
    (th.value ≤ countActiveWarnings db u.id t + 1 →
      (warn notif now t reason m u fin extra db).res = .ok () ∧
      (warn notif now t reason m u fin extra db).db.committed.warnings =
        db.committed.warnings ++ db.pendingWarnings ++
          [mkWarning db.nextWarningId now t reason m u extra] ∧
      (warn notif now t reason m u fin extra db).db.committed.actions =
        db.committed.actions ++ db.pendingActions ++
          [mkAction db.nextActionId now t reason m u extra fin] ∧
      (warn notif now t reason m u fin extra db).sent =
        [.email u.id moderatedSubject reason, .message u.id reason]) := by
  constructor
  · intro hc
    rw [warn_below_ok notif now t reason m u fin extra db th hth hc hwe hm]
    exact ⟨rfl, by simp [commitDB, stageWarning], rfl, rfl⟩
  · intro hc
    rw [warn_escalate_ok notif now t reason m u fin extra db th hth hc hme hm]
    refine ⟨rfl, ?_, ?_, rfl⟩
    · simp [commitDB, stageAction, stageWarning]
    · simp [commitDB, stageAction, stageWarning]

/-- Witness for the C3 amended theorem: both regimes at concrete
inputs (zero prior warnings stays below threshold 3; two prior
warnings reach it). -/
theorem c3_threshold_boundary_witness :
    (countActiveWarnings dbThr exUser.id exType + 1 < 3 ∧
      ((warn allOk 0 exType exReason exMod exUser none none dbThr).res =
        .ok () ∧
       (warn allOk 0 exType exReason exMod exUser none none
         dbThr).db.committed.warnings =
        dbThr.committed.warnings ++ dbThr.pendingWarnings ++
          [mkWarning dbThr.nextWarningId 0 exType exReason exMod exUser none] ∧
       (warn allOk 0 exType exReason exMod exUser none none
         dbThr).db.committed.actions =
        dbThr.committed.actions ++ dbThr.pendingActions ∧
       (warn allOk 0 exType exReason exMod exUser none none dbThr).sent =
        [.email exUser.id warnedSubject exReason,
         .message exUser.id exReason])) ∧
    (3 ≤ countActiveWarnings dbTwoWarnings exUser.id exType + 1 ∧
      ((warn allOk 0 exType exReason exMod exUser none none
         dbTwoWarnings).res = .ok () ∧
       (warn allOk 0 exType exReason exMod exUser none none
         dbTwoWarnings).db.committed.warnings =
        dbTwoWarnings.committed.warnings ++ dbTwoWarnings.pendingWarnings ++
          [mkWarning dbTwoWarnings.nextWarningId 0 exType exReason exMod
            exUser none] ∧
       (warn allOk 0 exType exReason exMod exUser none none
         dbTwoWarnings).db.committed.actions =
        dbTwoWarnings.committed.actions ++ dbTwoWarnings.pendingActions ++
          [mkAction dbTwoWarnings.nextActionId 0 exType exReason exMod exUser
            none none] ∧
       (warn allOk 0 exType exReason exMod exUser none none
         dbTwoWarnings).sent =
        [.email exUser.id moderatedSubject exReason,
         .message exUser.id exReason])) :=
  ⟨⟨by decide,
    (c3_threshold_boundary allOk 0 exType exReason exMod exUser none none
      dbThr ⟨1, exType, 3⟩ (by decide) rfl rfl rfl).1 (by decide)⟩,
   ⟨by decide,
    (c3_threshold_boundary allOk 0 exType exReason exMod exUser none none
      dbTwoWarnings ⟨1, exType, 3⟩ (by decide) rfl rfl rfl).2 (by decide)⟩⟩

/-- C4: whenever `warn` raises — missing threshold row, escalation
failure or notification failure — every write staged during the call
is rolled back and nothing pending survives: the committed store
afterwards equals the committed store before the call. -/
theorem c4_warn_all_or_nothing (notif : Notifier) (now : Nat)
    (t reason : String) (m u : RemoteUser) (fin : Option Nat)
    (extra : Option ExtraData) (db : DB) (e : PyError)
    (h : (warn notif now t reason m u fin extra db).res = .error e) :
    (warn notif now t reason m u fin extra db).db.committed = db.committed ∧
    (warn notif now t reason m u fin extra db).db.pendingActions = [] ∧
    (warn notif now t reason m u fin extra db).db.pendingWarnings = [] := by
  cases hth : findThreshold db t with
  | none =>
    rw [warn_no_threshold notif now t reason m u fin extra db hth]
    exact ⟨rfl, rfl, rfl⟩
  | some th =>
    rcases Nat.lt_or_ge (countActiveWarnings db u.id t + 1) th.value with hc | hc
    · cases he : notif.emailOk u.id warnedSubject reason with
      | false =>
        rw [warn_below_email_fail notif now t reason m u fin extra db th
          hth hc he]
        exact ⟨rfl, rfl, rfl⟩
      | true =>
        cases hm : notif.messageOk u.id reason with
        | false =>
          rw [warn_below_message_fail notif now t reason m u fin extra db th
            hth hc he hm]
          exact ⟨rfl, rfl, rfl⟩
        | true =>
          rw [warn_below_ok notif now t reason m u fin extra db th
            hth hc he hm] at h
          simp at h
    · cases he : notif.emailOk u.id moderatedSubject reason with
      | false =>
        rw [warn_escalate_email_fail notif now t reason m u fin extra db th
          hth hc he]
        exact ⟨rfl, rfl, rfl⟩
      | true =>
        cases hm : notif.messageOk u.id reason with
        | false =>
          rw [warn_escalate_message_fail notif now t reason m u fin extra db th
            hth hc he hm]
          exact ⟨rfl, rfl, rfl⟩
        | true =>
          rw [warn_escalate_ok notif now t reason m u fin extra db th
            hth hc he hm] at h
          simp at h

/-- Witness for C4 at a concrete input: the warning email fails below
threshold, the call raises, the committed store is unchanged. -/
theorem c4_warn_all_or_nothing_witness :
    (warn emailDown 0 exType exReason exMod exUser none none dbThr).res =
      .error .deliveryError ∧
    ((warn emailDown 0 exType exReason exMod exUser none none
       dbThr).db.committed = dbThr.committed ∧
     (warn emailDown 0 exType exReason exMod exUser none none
       dbThr).db.pendingActions = [] ∧
     (warn emailDown 0 exType exReason exMod exUser none none
       dbThr).db.pendingWarnings = []) :=
  ⟨rfl, c4_warn_all_or_nothing emailDown 0 exType exReason exMod exUser
    none none dbThr .deliveryError rfl⟩

/- Helper lemmas: the only results `moderate` and `warn` can return. -/

theorem moderate_res_cases (notif : Notifier) (now : Nat)
    (t reason : String) (m u : RemoteUser) (extra : Option ExtraData)
    (fin : Option Nat) (commit : Bool) (db : DB) :
    (moderate notif now t reason m u extra fin commit db).res = .ok none ∨
    (moderate notif now t reason m u extra fin commit db).res =
      .error .deliveryError := by
  cases he : notif.emailOk u.id moderatedSubject reason with
  | false =>
    rw [moderate_email_fail notif now t reason m u extra fin commit db he]
    exact Or.inr rfl
  | true =>
    cases hm : notif.messageOk u.id reason with
    | false =>
      rw [moderate_message_fail notif now t reason m u extra fin commit db he hm]
      exact Or.inr rfl
    | true =>
      rw [moderate_ok notif now t reason m u extra fin commit db he hm]
      exact Or.inl rfl

theorem warn_res_cases (notif : Notifier) (now : Nat)
    (t reason : String) (m u : RemoteUser) (fin : Option Nat)
    (extra : Option ExtraData) (db : DB) :
    (warn notif now t reason m u fin extra db).res = .ok () ∨
    (warn notif now t reason m u fin extra db).res = .error .attributeError ∨
    (warn notif now t reason m u fin extra db).res = .error .deliveryError := by
  cases hth : findThreshold db t with
  | none =>
    rw [warn_no_threshold notif now t reason m u fin extra db hth]
    exact Or.inr (Or.inl rfl)
  | some th =>
    rcases Nat.lt_or_ge (countActiveWarnings db u.id t + 1) th.value with hc | hc
    · cases he : notif.emailOk u.id warnedSubject reason with
      | false =>
        rw [warn_below_email_fail notif now t reason m u fin extra db th hth hc he]
        exact Or.inr (Or.inr rfl)
      | true =>
        cases hm : notif.messageOk u.id reason with
        | false =>
          rw [warn_below_message_fail notif now t reason m u fin extra db th
            hth hc he hm]
          exact Or.inr (Or.inr rfl)
        | true =>
          rw [warn_below_ok notif now t reason m u fin extra db th hth hc he hm]
          exact Or.inl rfl
    · cases he : notif.emailOk u.id moderatedSubject reason with
      | false =>
        rw [warn_escalate_email_fail notif now t reason m u fin extra db th
          hth hc he]
        exact Or.inr (Or.inr rfl)
      | true =>
        cases hm : notif.messageOk u.id reason with
        | false =>
          rw [warn_escalate_message_fail notif now t reason m u fin extra db th
            hth hc he hm]
          exact Or.inr (Or.inr rfl)
        | true =>
          rw [warn_escalate_ok notif now t reason m u fin extra db th hth hc he hm]
          exact Or.inl rfl

/-- C5 counterexample: with no threshold row configured, `warn`
raises a plain `AttributeError` (from dereferencing the absent row),
which is not the distinguishable `ConfigurationError` kind the claim
requires; no warning is committed. -/
theorem c5_counterexample :
    (warn allOk 0 exType exReason exMod exUser none none db0).res =
      .error .attributeError ∧
    PyError.attributeError ≠ PyError.configurationError ∧
    (warn allOk 0 exType exReason exMod exUser none none
      db0).db.committed.warnings = [] := by
  exact ⟨rfl, by decide, rfl⟩

/-- C5 (amended): `warn` on an action_type with no configured
threshold row fails — for every session state and regardless of the
warning count, so the default constant 3 is never used as a fallback —
with an undistinguished `AttributeError` rather than a dedicated
`ConfigurationError`, and the committed store (so in particular the
warning ledger) is left unchanged. -/
theorem c5_missing_threshold_attribute_error (notif : Notifier) (now : Nat)
    (t reason : String) (m u : RemoteUser) (fin : Option Nat)
    (extra : Option ExtraData) (db : DB)
    (hth : findThreshold db t = none) :
    (warn notif now t reason m u fin extra db).res = .error .attributeError ∧
    (warn notif now t reason m u fin extra db).res ≠
      .error .configurationError ∧
    (warn notif now t reason m u fin extra db).db.committed = db.committed := by
  rw [warn_no_threshold notif now t reason m u fin extra db hth]
  exact ⟨rfl, by simp, rfl⟩

/-- Witness for the C5 amended theorem at a concrete input. -/
theorem c5_missing_threshold_attribute_error_witness :
    findThreshold db0 exType = none ∧
    ((warn allOk 0 exType exReason exMod exUser none none db0).res =
      .error .attributeError ∧
     (warn allOk 0 exType exReason exMod exUser none none db0).res ≠
      .error .configurationError ∧
     (warn allOk 0 exType exReason exMod exUser none none db0).db.committed =
      db0.committed) :=
  ⟨rfl, c5_missing_threshold_attribute_error allOk 0 exType exReason exMod
    exUser none none db0 rfl⟩

/-- C6 counterexample: a call with an empty reason is not rejected.
`moderate` with the empty reason succeeds and commits the action row
carrying the empty reason, and `warn` with the empty reason succeeds
and commits the warning row — no validation error occurs before (or
after) the writes. -/
theorem c6_counterexample :
    (moderate allOk 0 exType noReason exMod exUser none none true db0).res =
      .ok none ∧
    (moderate allOk 0 exType noReason exMod exUser none none true
      db0).db.committed.actions =
      [mkAction 1 0 exType noReason exMod exUser none none] ∧
    (warn allOk 0 exType noReason exMod exUser none none dbThr).res = .ok () ∧
    (warn allOk 0 exType noReason exMod exUser none none
      dbThr).db.committed.warnings =
      [mkWarning 1 0 exType noReason exMod exUser none] := by
  exact ⟨rfl, rfl, rfl, rfl⟩

/-- C6 (amended): neither `moderate` nor `warn` validates `reason` at
all.  A call with the empty reason proceeds exactly like any other:
`moderate` stages and commits the row with the empty reason, and
neither operation ever raises a `ValidationError`. -/
theorem c6_no_reason_validation (notif : Notifier) (now : Nat)
    (t : String) (m u : RemoteUser) (extra : Option ExtraData)
    (fin : Option Nat) (db : DB)
    (he : notif.emailOk u.id moderatedSubject noReason = true)
    (hm : notif.messageOk u.id noReason = true) :
    (moderate notif now t noReason m u extra fin true db).res = .ok none ∧
    (moderate notif now t noReason m u extra fin true db).db.committed.actions =
      db.committed.actions ++ db.pendingActions ++
        [mkAction db.nextActionId now t noReason m u extra fin] ∧
    (warn notif now t noReason m u fin extra db).res ≠
      .error .validationError ∧
    (moderate notif now t noReason m u extra fin true db).res ≠
      .error .validationError := by
  rw [moderate_ok notif now t noReason m u extra fin true db he hm]
  refine ⟨rfl, by simp [commitDB, stageAction], ?_, by simp⟩
  rcases warn_res_cases notif now t noReason m u fin extra db with h | h | h <;>
    simp [h]

/-- Witness for the C6 amended theorem at a concrete input. -/
theorem c6_no_reason_validation_witness :
    allOk.emailOk exUser.id moderatedSubject noReason = true ∧
    allOk.messageOk exUser.id noReason = true ∧
    ((moderate allOk 0 exType noReason exMod exUser none none true db0).res =
      .ok none ∧
     (moderate allOk 0 exType noReason exMod exUser none none true
       db0).db.committed.actions =
      db0.committed.actions ++ db0.pendingActions ++
        [mkAction db0.nextActionId 0 exType noReason exMod exUser none none] ∧
     (warn allOk 0 exType noReason exMod exUser none none db0).res ≠
      .error .validationError ∧
     (moderate allOk 0 exType noReason exMod exUser none none true db0).res ≠
      .error .validationError) :=
  ⟨rfl, rfl, c6_no_reason_validation allOk 0 exType exMod exUser none none
    db0 rfl rfl⟩

/-- C7 counterexample: a successful `moderate` run commits the new
action row, yet its Python return value is `None`, not the created
`ModerationAction` record. -/
theorem c7_counterexample :
    (moderate allOk 0 exType exReason exMod exUser none none true db0).res =
      .ok none ∧
    (moderate allOk 0 exType exReason exMod exUser none none true
      db0).db.committed.actions =
      [mkAction 1 0 exType exReason exMod exUser none none] ∧
    (moderate allOk 0 exType exReason exMod exUser none none true db0).res ≠
      .ok (some (mkAction 1 0 exType exReason exMod exUser none none)) := by
  refine ⟨rfl, rfl, fun h => ?_⟩
  rw [show (moderate allOk 0 exType exReason exMod exUser none none true
        db0).res = .ok none from rfl] at h
  exact Option.noConfusion (Except.ok.inj h)

/-- C7 (amended): a successful `moderate` call persists the created
`ModerationAction` row (and both notifications go out), but the
function body has no return statement, so the caller receives `None`
rather than the created record. -/
theorem c7_moderate_returns_none (notif : Notifier) (now : Nat)
    (t reason : String) (m u : RemoteUser) (extra : Option ExtraData)
    (fin : Option Nat) (db : DB)
    (he : notif.emailOk u.id moderatedSubject reason = true)
    (hm : notif.messageOk u.id reason = true) :
    (moderate notif now t reason m u extra fin true db).res = .ok none ∧
    (moderate notif now t reason m u extra fin true db).db.committed.actions =
      db.committed.actions ++ db.pendingActions ++
        [mkAction db.nextActionId now t reason m u extra fin] ∧
    (moderate notif now t reason m u extra fin true db).sent =
      [.email u.id moderatedSubject reason, .message u.id reason] := by
  rw [moderate_ok notif now t reason m u extra fin true db he hm]
  exact ⟨rfl, by simp [commitDB, stageAction], rfl⟩

/-- Witness for the C7 amended theorem at a concrete input. -/
theorem c7_moderate_returns_none_witness :
    allOk.emailOk exUser.id moderatedSubject exReason = true ∧
    ((moderate allOk 0 exType exReason exMod exUser none none true db0).res =
      .ok none ∧
     (moderate allOk 0 exType exReason exMod exUser none none true
       db0).db.committed.actions =
      db0.committed.actions ++ db0.pendingActions ++
        [mkAction db0.nextActionId 0 exType exReason exMod exUser none none] ∧
     (moderate allOk 0 exType exReason exMod exUser none none true db0).sent =
      [.email exUser.id moderatedSubject exReason,
       .message exUser.id exReason]) :=
  ⟨rfl, c7_moderate_returns_none allOk 0 exType exReason exMod exUser none
    none db0 rfl rfl⟩

/-- C8: whatever branch `warn` takes on a fresh session, the committed
warning ledger is never rewritten: it either stays as it was (failure)
or is extended by exactly the one new warning row — no existing
warning is deactivated or removed; and on success the active-warning
count the next call will see has grown by one, so counts accumulate
across escalations. -/
theorem c8_escalation_does_not_reset (notif : Notifier) (now : Nat)
    (t reason : String) (m u : RemoteUser) (fin : Option Nat)
    (extra : Option ExtraData) (db : DB)
    (hp : db.pendingWarnings = []) :
    ((warn notif now t reason m u fin extra db).db.committed.warnings =
        db.committed.warnings ∨
     (warn notif now t reason m u fin extra db).db.committed.warnings =
        db.committed.warnings ++
          [mkWarning db.nextWarningId now t reason m u extra]) ∧
    ((warn notif now t reason m u fin extra db).res = .ok () →
      storeCount (warn notif now t reason m u fin extra db).db.committed
          u.id t =
        storeCount db.committed u.id t + 1) := by
  cases hth : findThreshold db t with
  | none =>
    rw [warn_no_threshold notif now t reason m u fin extra db hth]
    exact ⟨Or.inl rfl, fun h => by simp at h⟩
  | some th =>
    rcases Nat.lt_or_ge (countActiveWarnings db u.id t + 1) th.value with hc | hc
    · cases he : notif.emailOk u.id warnedSubject reason with
      | false =>
        rw [warn_below_email_fail notif now t reason m u fin extra db th
          hth hc he]
        exact ⟨Or.inl rfl, fun h => by simp at h⟩
      | true =>
        cases hm : notif.messageOk u.id reason with
        | false =>
          rw [warn_below_message_fail notif now t reason m u fin extra db th
            hth hc he hm]
          exact ⟨Or.inl rfl, fun h => by simp at h⟩
        | true =>
          rw [warn_below_ok notif now t reason m u fin extra db th hth hc he hm]
          constructor
          · exact Or.inr (by simp [commitDB, stageWarning, hp])
          · intro _
            simp [commitDB, stageWarning, hp, storeCount, List.filter_append,
              warningMatches, mkWarning]
    · cases he : notif.emailOk u.id moderatedSubject reason with
      | false =>
        rw [warn_escalate_email_fail notif now t reason m u fin extra db th
          hth hc he]
        exact ⟨Or.inl rfl, fun h => by simp at h⟩
      | true =>
        cases hm : notif.messageOk u.id reason with
        | false =>
          rw [warn_escalate_message_fail notif now t reason m u fin extra db th
            hth hc he hm]
          exact ⟨Or.inl rfl, fun h => by simp at h⟩
        | true =>
          rw [warn_escalate_ok notif now t reason m u fin extra db th
            hth hc he hm]
          constructor
          · exact Or.inr (by simp [commitDB, stageAction, stageWarning, hp])
          · intro _
            simp [commitDB, stageAction, stageWarning, hp, storeCount,
              List.filter_append, warningMatches, mkWarning]

/-- Witness for C8 at a concrete input: an escalating call (two prior
warnings, threshold 3) leaves both prior warnings in place and the
count grows to three. -/
theorem c8_escalation_does_not_reset_witness :
    dbTwoWarnings.pendingWarnings = [] ∧
    ((warn allOk 0 exType exReason exMod exUser none none
        dbTwoWarnings).db.committed.warnings =
        dbTwoWarnings.committed.warnings ∨
     (warn allOk 0 exType exReason exMod exUser none none
        dbTwoWarnings).db.committed.warnings =
        dbTwoWarnings.committed.warnings ++
          [mkWarning dbTwoWarnings.nextWarningId 0 exType exReason exMod
            exUser none]) ∧
    storeCount (warn allOk 0 exType exReason exMod exUser none none
        dbTwoWarnings).db.committed exUser.id exType =
      storeCount dbTwoWarnings.committed exUser.id exType + 1 :=
  have h := c8_escalation_does_not_reset allOk 0 exType exReason exMod exUser
    none none dbTwoWarnings rfl
  ⟨rfl, h.1, h.2 rfl⟩

/- Helper lemmas for the `turn_on` / `turn_off` frame property. -/

theorem mapFrame_update_actions (l : List ModerationAction) (i : Nat)
    (f : ModerationAction → ModerationAction)
    (hf : ∀ a, actionFrame (f a) = actionFrame a) :
    (l.map (fun a => if a.id == i then f a else a)).map actionFrame =
      l.map actionFrame := by
  induction l with
  | nil => rfl
  | cons a l ih =>
    simp only [List.map_cons, ih]
    by_cases h : a.id = i <;> simp [h, hf a]

theorem mapFrame_update_warnings (l : List ModerationWarning) (i : Nat)
    (f : ModerationWarning → ModerationWarning)
    (hf : ∀ w, warningFrame (f w) = warningFrame w) :
    (l.map (fun w => if w.id == i then f w else w)).map warningFrame =
      l.map warningFrame := by
  induction l with
  | nil => rfl
  | cons w l ih =>
    simp only [List.map_cons, ih]
    by_cases h : w.id = i <;> simp [h, hf w]

theorem mem_update_actions (l : List ModerationAction) (i : Nat)
    (f : ModerationAction → ModerationAction) (a : ModerationAction)
    (ha : a ∈ l) (hne : a.id ≠ i) :
    a ∈ l.map (fun x => if x.id == i then f x else x) :=
  List.mem_map.mpr ⟨a, ha, by simp [hne]⟩

theorem mem_update_warnings (l : List ModerationWarning) (i : Nat)
    (f : ModerationWarning → ModerationWarning) (w : ModerationWarning)
    (hw : w ∈ l) (hne : w.id ≠ i) :
    w ∈ l.map (fun x => if x.id == i then f x else x) :=
  List.mem_map.mpr ⟨w, hw, by simp [hne]⟩

/-- C9: a `turn_on` or `turn_off` call (on an action or a warning)
changes nothing but the `is_active` field: every other field of every
row is preserved (the frame maps agree), the other table and the
thresholds are untouched, and any row with a different id is kept
verbatim. -/
theorem c9_turn_on_off_only_is_active (s : Store) (i : Nat) :
    ((turnOnAction s i).actions.map actionFrame =
        s.actions.map actionFrame ∧
     (turnOnAction s i).warnings = s.warnings ∧
     (turnOnAction s i).thresholds = s.thresholds ∧
     ∀ a, a ∈ s.actions → a.id ≠ i → a ∈ (turnOnAction s i).actions) ∧
    ((turnOffAction s i).actions.map actionFrame =
        s.actions.map actionFrame ∧
     (turnOffAction s i).warnings = s.warnings ∧
     (turnOffAction s i).thresholds = s.thresholds ∧
     ∀ a, a ∈ s.actions → a.id ≠ i → a ∈ (turnOffAction s i).actions) ∧
    ((turnOnWarning s i).warnings.map warningFrame =
        s.warnings.map warningFrame ∧
     (turnOnWarning s i).actions = s.actions ∧
     (turnOnWarning s i).thresholds = s.thresholds ∧
     ∀ w, w ∈ s.warnings → w.id ≠ i → w ∈ (turnOnWarning s i).warnings) ∧
    ((turnOffWarning s i).warnings.map warningFrame =
        s.warnings.map warningFrame ∧
     (turnOffWarning s i).actions = s.actions ∧
     (turnOffWarning s i).thresholds = s.thresholds ∧
     ∀ w, w ∈ s.warnings → w.id ≠ i → w ∈ (turnOffWarning s i).warnings) := by
  refine ⟨⟨?_, rfl, rfl, ?_⟩, ⟨?_, rfl, rfl, ?_⟩,
    ⟨?_, rfl, rfl, ?_⟩, ⟨?_, rfl, rfl, ?_⟩⟩
  · exact mapFrame_update_actions s.actions i ModerationAction.turn_on
      (fun a => rfl)
  · exact fun a ha hne => mem_update_actions s.actions i
      ModerationAction.turn_on a ha hne
  · exact mapFrame_update_actions s.actions i ModerationAction.turn_off
      (fun a => rfl)
  · exact fun a ha hne => mem_update_actions s.actions i
      ModerationAction.turn_off a ha hne
  · exact mapFrame_update_warnings s.warnings i ModerationWarning.turn_on
      (fun w => rfl)
  · exact fun w hw hne => mem_update_warnings s.warnings i
      ModerationWarning.turn_on w hw hne
  · exact mapFrame_update_warnings s.warnings i ModerationWarning.turn_off
      (fun w => rfl)
  · exact fun w hw hne => mem_update_warnings s.warnings i
      ModerationWarning.turn_off w hw hne

/-- Witness for C9 at a concrete store: turning off warning 1 keeps
warning 2 verbatim and preserves every non-`is_active` field. -/
theorem c9_turn_on_off_only_is_active_witness :
    (turnOffWarning dbTwoWarnings.committed 1).warnings.map warningFrame =
      dbTwoWarnings.committed.warnings.map warningFrame ∧
    (turnOffWarning dbTwoWarnings.committed 1).actions =
      dbTwoWarnings.committed.actions ∧
    exWarning 2 ∈ (turnOffWarning dbTwoWarnings.committed 1).warnings :=
  have h := (c9_turn_on_off_only_is_active dbTwoWarnings.committed 1).2.2.2
  ⟨h.1, h.2.1, h.2.2.2 (exWarning 2) (by decide) (by decide)⟩

/-- C10: the `finish_at` argument of `warn` never reaches the warning
ledger — the committed warnings are identical whatever `finish_at` is
passed, and on the non-escalating path no action row is written at
all — while on the escalating path it is forwarded, together with
`extra_data`, onto the created `ModerationAction`, whose `finish_at`
equals the argument and which is time-limited exactly when the
argument is present. -/
theorem c10_finish_at_forwarded_to_escalation (notif : Notifier) (now : Nat)
    (t reason : String) (m u : RemoteUser) (extra : Option ExtraData)
    (fin1 fin2 : Option Nat) (db : DB) (th : ModerationWarningThreshold)
    (hth : findThreshold db t = some th)
    (hwe : notif.emailOk u.id warnedSubject reason = true)
    (he : notif.emailOk u.id moderatedSubject reason = true)
    (hm : notif.messageOk u.id reason = true) :
    ((warn notif now t reason m u fin1 extra db).db.committed.warnings =
     (warn notif now t reason m u fin2 extra db).db.committed.warnings) ∧
    (th.value ≤ countActiveWarnings db u.id t + 1 →
      (warn notif now t reason m u fin1 extra db).db.committed.actions =
        db.committed.actions ++ db.pendingActions ++
          [mkAction db.nextActionId now t reason m u extra fin1] ∧
      (mkAction db.nextActionId now t reason m u extra fin1).finish_at =
        fin1 ∧
      (mkAction db.nextActionId now t reason m u extra fin1).extra_data =
        extra ∧
      (mkAction db.nextActionId now t reason m u extra fin1).time_limited =
        fin1.isSome) ∧
    (countActiveWarnings db u.id t + 1 < th.value →
      (warn notif now t reason m u fin1 extra db).db.committed.actions =
        db.committed.actions ++ db.pendingActions) := by
  refine ⟨?_, ?_, ?_⟩
  · rcases Nat.lt_or_ge (countActiveWarnings db u.id t + 1) th.value with
      hc | hc
    · rw [warn_below_ok notif now t reason m u fin1 extra db th hth hc hwe hm,
          warn_below_ok notif now t reason m u fin2 extra db th hth hc hwe hm]
    · rw [warn_escalate_ok notif now t reason m u fin1 extra db th
          hth hc he hm,
          warn_escalate_ok notif now t reason m u fin2 extra db th
          hth hc he hm]
      simp [commitDB, stageAction, stageWarning]
  · intro hc
    rw [warn_escalate_ok notif now t reason m u fin1 extra db th hth hc he hm]
    exact ⟨by simp [commitDB, stageAction, stageWarning], rfl, rfl, rfl⟩
  · intro hc
    rw [warn_below_ok notif now t reason m u fin1 extra db th hth hc hwe hm]
    simp [commitDB, stageWarning]

/-- Witness for C10 at a concrete input: an escalating call with
`finish_at = some 7` versus `finish_at = None` commits the same
warnings, and the escalated action carries `some 7`. -/
theorem c10_finish_at_forwarded_to_escalation_witness :
    findThreshold dbTwoWarnings exType = some ⟨1, exType, 3⟩ ∧
    ((warn allOk 0 exType exReason exMod exUser (some 7) none
        dbTwoWarnings).db.committed.warnings =
      (warn allOk 0 exType exReason exMod exUser none none
        dbTwoWarnings).db.committed.warnings) ∧
    ((warn allOk 0 exType exReason exMod exUser (some 7) none
        dbTwoWarnings).db.committed.actions =
      dbTwoWarnings.committed.actions ++ dbTwoWarnings.pendingActions ++
        [mkAction dbTwoWarnings.nextActionId 0 exType exReason exMod exUser
          none (some 7)] ∧
     (mkAction dbTwoWarnings.nextActionId 0 exType exReason exMod exUser none
       (some 7)).finish_at = some 7 ∧
     (mkAction dbTwoWarnings.nextActionId 0 exType exReason exMod exUser none
       (some 7)).extra_data = none ∧
     (mkAction dbTwoWarnings.nextActionId 0 exType exReason exMod exUser none
       (some 7)).time_limited = (some 7 : Option Nat).isSome) :=
  have h := c10_finish_at_forwarded_to_escalation allOk 0 exType exReason
    exMod exUser none (some 7) none dbTwoWarnings ⟨1, exType, 3⟩ rfl rfl rfl rfl
  ⟨rfl, h.1, h.2.1 (by decide)⟩
